import Mathlib

/-!
# Verification of the course-catalog observability service

A shallow embedding of `src/app.py` (Flask + OpenTelemetry course catalog).
Python dicts of string values are association lists in insertion order;
a raised exception is an `Except.error`; the observable behaviour of a
handler (span operations, structured log records, flash messages, store
calls, console prints) is an explicit trace of `Effect`s plus an HTTP
result.  Wall-clock durations attached as span attributes are modelled by
the opaque token `AttrVal.time`: their numeric value is real time and is
not modelled.
-/

deriving instance DecidableEq for Except

namespace CourseCatalog

/-- A Python dict with string keys and string values, in insertion order
(keys are unique in an actual dict). -/
abbrev Dict := List (String × String)

/-- Embedding of `d[k]` on a string-valued dict: the value at the first
binding of `k`, or a raised `KeyError`. -/
def dictGet (d : Dict) (k : String) : Except String String :=
  match d.find? (fun kv => kv.1 == k) with
  | some kv => .ok kv.2
  | none => .error ("KeyError: " ++ k)

/-- `d[k]` where the key is known to be present (total variant used for
dict displays whose keys were just built). -/
def dictGetD (d : Dict) (k : String) : String :=
  match d.find? (fun kv => kv.1 == k) with
  | some kv => kv.2
  | none => ""

/-- Embedding of Python truthiness of `s.strip()` negated:
`not s.strip()` holds exactly when `s` trims to the empty string, i.e.
every character of `s` is whitespace. -/
def stripEmpty (s : String) : Bool := s.data.all Char.isWhitespace

/-- The bool-or-string value returned by `validate_course`:
`False`, `"warning"`, or `True`. -/
inductive PyVal
  | vFalse
  | vWarning
  | vTrue
deriving DecidableEq, Repr

/-- A flash message `(message, category)` as passed to Flask `flash`. -/
abbrev Flash := String × String

/-- The three required field names (`error_fields` in `validate_course`). -/
def errorFieldNames : List String := ["code", "name", "instructor"]

/-- The nine form fields read by `add_course`, in the order the dict
literal at lines 134-144 of `app.py` builds them. -/
def formKeys : List String :=
  ["code", "name", "instructor", "semester", "schedule", "classroom",
   "prerequisites", "grading", "description"]

/-- The first loop of `validate_course`: walk the required field names;
a missing key raises `KeyError`; the first required field whose value is
blank flashes an error and makes the function return `False`.
Returns `none` when the loop falls through. -/
def requiredLoop (data : Dict) : List String → Except String (Option (PyVal × Flash))
  | [] => .ok none
  | f :: rest =>
    match dictGet data f with
    | .error e => .error e
    | .ok v =>
      if stripEmpty v then
        .ok (some (.vFalse,
          ("Error: \x27" ++ f ++ "\x27 field is required!", "error")))
      else requiredLoop data rest

/-- The second loop of `validate_course`: collect every key of the dict
whose value is blank (`for field in list(data.keys())`). -/
def warningLoop (data : Dict) : List String :=
  (data.map Prod.fst).filter (fun f =>
    match data.find? (fun kv => kv.1 == f) with
    | some kv => stripEmpty kv.2
    | none => false)

/-- Embedding of `validate_course` (app.py lines 72-87).  Returns the
bool-or-string result (or the raised exception) together with the list of
flash messages emitted during the call. -/
def validate_course (data : Dict) : Except String PyVal × List Flash :=
  match requiredLoop data errorFieldNames with
  | .error e => (.error e, [])
  | .ok (some (r, fl)) => (.ok r, [fl])
  | .ok none =>
    let warning_fields := warningLoop data
    if warning_fields.isEmpty then (.ok .vTrue, [])
    else
      (.ok .vWarning,
       [("Warning: \x27" ++ String.intercalate ", " warning_fields ++
         "\x27 field is empty", "warning")])

/-- A submitted course record: the nine tracked fields, all strings. -/
structure Course where
  code : String
  name : String
  instructor : String
  semester : String
  schedule : String
  classroom : String
  prerequisites : String
  grading : String
  description : String
deriving DecidableEq, Repr

/-- The dict `add_course` builds from the form, keyed as in the source. -/
def courseDict (c : Course) : Dict :=
  [("code", c.code), ("name", c.name), ("instructor", c.instructor),
   ("semester", c.semester), ("schedule", c.schedule),
   ("classroom", c.classroom), ("prerequisites", c.prerequisites),
   ("grading", c.grading), ("description", c.description)]

/-- Projection of a `Course` by field name (the value `courseDict` binds
to that key; `""` for an untracked name). -/
def fieldOf (c : Course) : String → String
  | "code" => c.code
  | "name" => c.name
  | "instructor" => c.instructor
  | "semester" => c.semester
  | "schedule" => c.schedule
  | "classroom" => c.classroom
  | "prerequisites" => c.prerequisites
  | "grading" => c.grading
  | "description" => c.description
  | _ => ""

/-- Some required field of `c` is blank after trimming. -/
def reqBlank (c : Course) : Bool :=
  stripEmpty c.code || stripEmpty c.name || stripEmpty c.instructor

/-- Some tracked field of `c` is blank after trimming. -/
def anyBlank (c : Course) : Bool :=
  stripEmpty c.code || stripEmpty c.name || stripEmpty c.instructor ||
  stripEmpty c.semester || stripEmpty c.schedule || stripEmpty c.classroom ||
  stripEmpty c.prerequisites || stripEmpty c.grading || stripEmpty c.description

example : (validate_course (courseDict ⟨"CS101", "Intro", "Dr. X", "", "s", "r", "p", "g", "d"⟩)).1
    = .ok .vWarning := by decide

example : (validate_course (courseDict ⟨"", "Algo", "Dr. Y", "s", "s", "r", "p", "g", "d"⟩))
    = (.ok .vFalse, [("Error: \x27code\x27 field is required!", "error")]) := by decide

example : (validate_course (courseDict ⟨"CS101", "Intro", "Dr. X", "a", "s", "r", "p", "g", "d"⟩))
    = (.ok .vTrue, []) := by decide

example : validate_course [("name", "Algo"), ("instructor", "Dr. Y")]
    = (.error "KeyError: code", []) := by decide

/-! ## Observable effects of the handlers -/

/-- Log severity of a `logger.info` / `logger.warning` / `logger.error` call. -/
inductive Sev
  | info
  | warn
  | error
deriving DecidableEq, Repr

/-- An OpenTelemetry span status code (`StatusCode.OK` / `StatusCode.ERROR`). -/
inductive SpanStatus
  | ok
  | error
deriving DecidableEq, Repr

/-- A value attached as a span attribute.  `time` stands for a wall-clock
duration (`end_time - start_time`): its numeric value is real time and is
not modelled further. -/
inductive AttrVal
  | str (s : String)
  | num (n : Nat)
  | time
deriving DecidableEq, Repr

/-- One observable step of a handler: span lifecycle operations, a
structured log record (the ordered JSON fields of the `json.dumps`
payload), a Flask flash, a catalog-store call, or a console print. -/
inductive Effect
  | spanOpen (name : String)
  | spanSetAttr (key : String) (v : AttrVal)
  | spanAddEvent (name : String)
  | spanSetStatus (code : SpanStatus) (msg : String)
  | spanClose
  | log (sev : Sev) (fields : Dict)
  | flashMsg (message : String) (category : String)
  | storeSave (course : Dict)
  | storeRemove (code : String)
  | consolePrint (s : String)
deriving DecidableEq, Repr

/-- The HTTP-level outcome of a handler. -/
inductive HttpResult
  | render (template : String)
  | redirect (endpoint : String)
  | text (body : String) (status : Nat)
  | exception (msg : String)
deriving DecidableEq, Repr

/-- Read-only snapshot of the inbound request:
`request.method`, `request.url`, `request.remote_addr`. -/
structure ReqCtx where
  method : String
  url : String
  ip : String
deriving DecidableEq, Repr

/-! ### Trace observations -/

/-- Number of `spanOpen` effects in a trace. -/
def spanOpens : List Effect → Nat
  | [] => 0
  | .spanOpen _ :: tr => spanOpens tr + 1
  | _ :: tr => spanOpens tr

/-- Number of `spanClose` effects in a trace. -/
def spanCloses : List Effect → Nat
  | [] => 0
  | .spanClose :: tr => spanCloses tr + 1
  | _ :: tr => spanCloses tr

/-- Number of `storeSave` (`save_courses`) calls in a trace. -/
def storeSaves : List Effect → Nat
  | [] => 0
  | .storeSave _ :: tr => storeSaves tr + 1
  | _ :: tr => storeSaves tr

/-- Number of `storeRemove` (`removeCourse`) calls in a trace. -/
def storeRemoves : List Effect → Nat
  | [] => 0
  | .storeRemove _ :: tr => storeRemoves tr + 1
  | _ :: tr => storeRemoves tr

/-- The structured log records of a trace, with their severities. -/
def logsOf : List Effect → List (Sev × Dict)
  | [] => []
  | .log s f :: tr => (s, f) :: logsOf tr
  | _ :: tr => logsOf tr

/-- Number of log records with the given severity. -/
def countSev (sev : Sev) : List Effect → Nat
  | [] => 0
  | .log s _ :: tr => (if s = sev then 1 else 0) + countSev sev tr
  | _ :: tr => countSev sev tr

/-- The `event` field of a structured log record. -/
def eventOf (fields : Dict) : String := dictGetD fields "event"

/-- Number of log records with the given severity and event name. -/
def countLogs (sev : Sev) (event : String) : List Effect → Nat
  | [] => 0
  | .log s f :: tr =>
      (if s = sev ∧ eventOf f = event then 1 else 0) + countLogs sev event tr
  | _ :: tr => countLogs sev event tr

/-- The status a span carries when it is closed: the last
`set_status` call wins (`none` when no status was ever set). -/
def finalStatus (tr : List Effect) : Option (SpanStatus × String) :=
  tr.foldl
    (fun acc e =>
      match e with
      | .spanSetStatus c m => some (c, m)
      | _ => acc)
    none

/-! ### The request handlers of `app.py` as trace-producing functions.
A `with tracer.start_as_current_span(...)` block contributes a `spanOpen`
at entry and a `spanClose` on every exit path, including a propagating
exception (Python context-manager semantics with `end_on_exit`). -/

/-- The three baseline attribute-setting effects shared by most spans. -/
def baseAttrs (ctx : ReqCtx) : List Effect :=
  [.spanSetAttr "http.method" (.str ctx.method),
   .spanSetAttr "http.url" (.str ctx.url),
   .spanSetAttr "user.ip" (.str ctx.ip)]

/-- The three request-context JSON fields shared by every log payload. -/
def ctxFields (ctx : ReqCtx) : Dict :=
  [("http.method", ctx.method), ("http.url", ctx.url), ("user.ip", ctx.ip)]

/-- Handler `index` (app.py lines 90-99): one Info log, no span. -/
def index (ctx : ReqCtx) : List Effect × HttpResult :=
  ([.log .info ([("level:", "INFO"), ("event", "render-index")] ++ ctxFields ctx)],
   .render "index.html")

/-- Handler `course_catalog` (lines 101-124): one span with baseline,
timing and `courses.count` attributes around loading and rendering, a
console print of the catalog size, then one Info log after the span
closes.  `courses` is the content of the catalog store. -/
def course_catalog (ctx : ReqCtx) (courses : List Course) :
    List Effect × HttpResult :=
  ([.spanOpen "render-course-catalog"] ++ baseAttrs ctx ++
   [.consolePrint (toString courses.length),
    .spanSetAttr "course_loading.time" .time,
    .spanSetAttr "courses.count" (.num courses.length),
    .spanSetAttr "processing.time" .time,
    .spanClose,
    .log .info ([("level:", "INFO"), ("event", "render-course-catalog")] ++ ctxFields ctx)],
   .render "course_catalog.html")

/-- The GET branch of handler `add_course` (lines 193-198): a bare span
with baseline attributes, no log. -/
def add_course_get (ctx : ReqCtx) : List Effect × HttpResult :=
  ([.spanOpen "render-add-course"] ++ baseAttrs ctx ++ [.spanClose],
   .render "add_course.html")

/-- The dict literal of lines 134-144: read the nine form fields in the
order the display lists them; a missing field raises (Flask
`request.form[...]`), which the `with` block lets propagate after
closing the span. -/
def buildCourse (form : Dict) : Except String Course :=
  Except.bind (dictGet form "code") (fun code =>
  Except.bind (dictGet form "name") (fun name =>
  Except.bind (dictGet form "instructor") (fun instructor =>
  Except.bind (dictGet form "semester") (fun semester =>
  Except.bind (dictGet form "schedule") (fun schedule =>
  Except.bind (dictGet form "classroom") (fun classroom =>
  Except.bind (dictGet form "prerequisites") (fun prerequisites =>
  Except.bind (dictGet form "grading") (fun grading =>
  Except.bind (dictGet form "description") (fun description =>
  .ok ⟨code, name, instructor, semester, schedule, classroom,
       prerequisites, grading, description⟩)))))))))

/-- The POST branch of handler `add_course` (lines 129-192). -/
def add_course_post (ctx : ReqCtx) (form : Dict) : List Effect × HttpResult :=
  let base := [Effect.spanOpen "add-course"] ++ baseAttrs ctx
  match buildCourse form with
  | .error e => (base ++ [.spanClose], .exception e)
  | .ok c =>
    let course := courseDict c
    let v := (validate_course course).1
    let flashEffs := (validate_course course).2.map
      (fun fl => Effect.flashMsg fl.1 fl.2)
    match v with
    | .error e => (base ++ flashEffs ++ [.spanClose], .exception e)
    | .ok .vFalse =>
      (base ++ flashEffs ++
       [.spanSetAttr "validation.time" .time,
        .log .error ([("level:", "ERROR"), ("event", "course-add-error"),
          ("error.message", "Required fields are empty")] ++ ctxFields ctx),
        .spanSetAttr "error.message" (.str "Required fields are empty"),
        .spanSetStatus .error "Required fields are empty",
        .spanClose],
       .render "add_course.html")
    | .ok .vWarning =>
      (base ++ flashEffs ++
       [.spanSetAttr "validation.time" .time,
        .log .warn ([("level:", "WARNING"), ("event", "course-add-warning"),
          ("warning.message", "Some fields are empty")] ++ ctxFields ctx),
        .spanSetAttr "course.code" (.str (dictGetD course "code")),
        .spanSetAttr "warning.message" (.str "Some fields are empty"),
        .spanAddEvent "Potential issue detected",
        .spanSetAttr "course.code" (.str (dictGetD course "code")),
        .storeSave course,
        .spanSetAttr "save.time" .time,
        .log .info ([("level:", "INFO"), ("event", "course-added")] ++ ctxFields ctx ++
          [("course.code", dictGetD course "code"),
           ("course.name", dictGetD course "name")]),
        .spanSetStatus .ok
          ("Course \x27" ++ dictGetD course "name" ++ "\x27 added successfully"),
        .flashMsg ("Course \x27" ++ dictGetD course "name" ++ "\x27 added successfully!")
          "success",
        .spanClose],
       .redirect "course_catalog")
    | .ok .vTrue =>
      (base ++ flashEffs ++
       [.spanSetAttr "validation.time" .time,
        .spanSetAttr "course.code" (.str (dictGetD course "code")),
        .storeSave course,
        .spanSetAttr "save.time" .time,
        .log .info ([("level:", "INFO"), ("event", "course-added")] ++ ctxFields ctx ++
          [("course.code", dictGetD course "code"),
           ("course.name", dictGetD course "name")]),
        .spanSetStatus .ok
          ("Course \x27" ++ dictGetD course "name" ++ "\x27 added successfully"),
        .flashMsg ("Course \x27" ++ dictGetD course "name" ++ "\x27 added successfully!")
          "success",
        .spanClose],
       .redirect "course_catalog")

/-- Handler `course_details` (lines 201-238).  `catalog` is the content
of the catalog store; the first course whose `code` matches is shown,
otherwise the not-found path runs. -/
def course_details (ctx : ReqCtx) (code : String) (catalog : List Course) :
    List Effect × HttpResult :=
  match catalog.find? (fun c => c.code == code) with
  | none =>
    ([.spanOpen "view-course-details",
      .flashMsg ("No course found with code \x27" ++ code ++ "\x27.") "error",
      .log .error ([("level:", "ERROR"), ("event", "view-course-details-error"),
        ("error.message", "No course found with code \x27" ++ code ++ "\x27.")] ++
        ctxFields ctx)] ++
     [.spanSetAttr "error.message"
        (.str ("No course found with code \x27" ++ code ++ "\x27."))] ++
     baseAttrs ctx ++
     [.spanSetAttr "course.code" (.str code),
      .spanSetStatus .error ("No course found with code \x27" ++ code ++ "\x27."),
      .spanClose],
     .redirect "course_catalog")
  | some c =>
    ([.spanOpen "view-course-details",
      .log .info ([("level:", "INFO"), ("event", "view-course-details")] ++
        ctxFields ctx ++
        [("course.code", c.code), ("course.name", c.name)])] ++
     baseAttrs ctx ++
     [.spanSetAttr "course.code" (.str c.code),
      .spanSetAttr "course.name" (.str c.name),
      .spanSetStatus .ok ("Course found with code \x27" ++ code ++ "\x27"),
      .spanClose],
     .render "course_details.html")

/-- Handler `contact` (lines 240-258): one Info log emitted before the
span opens, then a span with baseline and timing attributes and status Ok. -/
def contact (ctx : ReqCtx) : List Effect × HttpResult :=
  ([.log .info ([("level:", "INFO"), ("event", "render-contact")] ++ ctxFields ctx),
    .spanOpen "render-contact"] ++ baseAttrs ctx ++
   [.spanSetAttr "processing.time" .time,
    .spanSetStatus .ok "Contact page rendered successfully",
    .spanClose],
   .render "contact.html")

/-- Handler `manual_trace` (lines 260-267): a span with method and url
attributes and one event; no log record. -/
def manual_trace (ctx : ReqCtx) : List Effect × HttpResult :=
  ([.spanOpen "manual-span",
    .spanSetAttr "http.method" (.str ctx.method),
    .spanSetAttr "http.url" (.str ctx.url),
    .spanAddEvent "Processing request",
    .spanClose],
   .text "Manual trace recorded!" 200)

/-- Handler `auto_instrumented` (lines 270-273): no explicit span or log. -/
def auto_instrumented : List Effect × HttpResult :=
  ([], .text "This route is auto-instrumented!" 200)

/-- A reified handler invocation, used to talk about arbitrary sequences
of operations. -/
inductive Operation
  | opIndex (ctx : ReqCtx)
  | opCatalog (ctx : ReqCtx) (courses : List Course)
  | opAddGet (ctx : ReqCtx)
  | opAddPost (ctx : ReqCtx) (form : Dict)
  | opDetails (ctx : ReqCtx) (code : String) (catalog : List Course)
  | opContact (ctx : ReqCtx)
  | opManual (ctx : ReqCtx)
  | opAuto

/-- Run one reified handler invocation. -/
def runOp : Operation → List Effect × HttpResult
  | .opIndex ctx => index ctx
  | .opCatalog ctx courses => course_catalog ctx courses
  | .opAddGet ctx => add_course_get ctx
  | .opAddPost ctx form => add_course_post ctx form
  | .opDetails ctx code catalog => course_details ctx code catalog
  | .opContact ctx => contact ctx
  | .opManual ctx => manual_trace ctx
  | .opAuto => auto_instrumented

/-- The effect trace of one reified handler invocation. -/
def traceOf (op : Operation) : List Effect := (runOp op).1

/-! ### The logger and its sinks (app.py lines 32-54) -/

/-- A configured log sink: the `JSONFileHandler` appending to
`app_logs.json`, or the console `StreamHandler`. -/
inductive Sink
  | file (path : String)
  | stream
deriving DecidableEq, Repr

/-- The handlers attached to the logger, in registration order. -/
def loggerSinks : List Sink := [.file "app_logs.json", .stream]

/-- Serialization of one log payload: `json.dumps(fields, indent=4)`
of an insertion-ordered dict.  (JSON string escaping is not modelled;
the payloads of `app.py` contain no characters needing it.) -/
def formatRecord (fields : Dict) : String :=
  "\x7b\n" ++
  String.intercalate ",\n"
    (fields.map (fun kv => "    \"" ++ kv.1 ++ "\": \"" ++ kv.2 ++ "\"")) ++
  "\n\x7d"

/-- One `logger.<sev>(json.dumps(...))` call: with the `%(message)s`
formatter, every attached handler receives the same serialized record,
synchronously and in registration order. -/
def emitRecord (fields : Dict) : List (Sink × String) :=
  loggerSinks.map (fun s => (s, formatRecord fields))

/-! ### Delete-by-code -/

/-- Modelled from the spec: no delete-by-code handler exists in
`src/app.py`; §4.5 and Scenario D of the spec describe it (always calls
the store `removeCourse` once, emits one Info log with event
`course-deleted`, sets span attribute `course.code` to the requested
code, regardless of whether the code exists in the catalog, and returns
to the catalog view).  The `catalog` argument is the store content; the
handler's observable effects do not depend on it. -/
def delete_course (ctx : ReqCtx) (code : String) (catalog : List Course) :
    List Effect × HttpResult :=
  let _ := catalog
  ([.spanOpen "delete-course"] ++ baseAttrs ctx ++
   [.storeRemove code,
    .log .info ([("level:", "INFO"), ("event", "course-deleted")] ++
      ctxFields ctx ++ [("course.code", code)]),
    .spanSetAttr "course.code" (.str code),
    .spanClose],
   .redirect "course_catalog")

/-! ### Helper lemmas on trace observations -/

theorem spanOpens_append (a b : List Effect) :
    spanOpens (a ++ b) = spanOpens a + spanOpens b := by
  induction a with
  | nil => simp [spanOpens]
  | cons e tr ih => cases e <;> simp [spanOpens, ih] <;> omega

theorem spanCloses_append (a b : List Effect) :
    spanCloses (a ++ b) = spanCloses a + spanCloses b := by
  induction a with
  | nil => simp [spanCloses]
  | cons e tr ih => cases e <;> simp [spanCloses, ih] <;> omega

theorem storeSaves_append (a b : List Effect) :
    storeSaves (a ++ b) = storeSaves a + storeSaves b := by
  induction a with
  | nil => simp [storeSaves]
  | cons e tr ih => cases e <;> simp [storeSaves, ih] <;> omega

theorem storeRemoves_append (a b : List Effect) :
    storeRemoves (a ++ b) = storeRemoves a + storeRemoves b := by
  induction a with
  | nil => simp [storeRemoves]
  | cons e tr ih => cases e <;> simp [storeRemoves, ih] <;> omega

theorem countSev_append (sev : Sev) (a b : List Effect) :
    countSev sev (a ++ b) = countSev sev a + countSev sev b := by
  induction a with
  | nil => simp [countSev]
  | cons e tr ih => cases e <;> simp [countSev, ih] <;> omega

theorem countLogs_append (sev : Sev) (ev : String) (a b : List Effect) :
    countLogs sev ev (a ++ b) = countLogs sev ev a + countLogs sev ev b := by
  induction a with
  | nil => simp [countLogs]
  | cons e tr ih => cases e <;> simp [countLogs, ih] <;> omega

theorem logsOf_append (a b : List Effect) :
    logsOf (a ++ b) = logsOf a ++ logsOf b := by
  induction a with
  | nil => simp [logsOf]
  | cons e tr ih => cases e <;> simp [logsOf, ih]

/-- Flash effects contribute no span opens. -/
theorem spanOpens_flashes (l : List Flash) :
    spanOpens (l.map (fun fl => Effect.flashMsg fl.1 fl.2)) = 0 := by
  induction l with
  | nil => rfl
  | cons fl tl ih => simpa [spanOpens] using ih

/-- Flash effects contribute no span closes. -/
theorem spanCloses_flashes (l : List Flash) :
    spanCloses (l.map (fun fl => Effect.flashMsg fl.1 fl.2)) = 0 := by
  induction l with
  | nil => rfl
  | cons fl tl ih => simpa [spanCloses] using ih

/-- Flash effects contribute no store saves. -/
theorem storeSaves_flashes (l : List Flash) :
    storeSaves (l.map (fun fl => Effect.flashMsg fl.1 fl.2)) = 0 := by
  induction l with
  | nil => rfl
  | cons fl tl ih => simpa [storeSaves] using ih

/-- Flash effects contribute no log records. -/
theorem countSev_flashes (sev : Sev) (l : List Flash) :
    countSev sev (l.map (fun fl => Effect.flashMsg fl.1 fl.2)) = 0 := by
  induction l with
  | nil => rfl
  | cons fl tl ih => simpa [countSev] using ih

/-- Flash effects contribute no log records with any event. -/
theorem countLogs_flashes (sev : Sev) (ev : String) (l : List Flash) :
    countLogs sev ev (l.map (fun fl => Effect.flashMsg fl.1 fl.2)) = 0 := by
  induction l with
  | nil => rfl
  | cons fl tl ih => simpa [countLogs] using ih

/-- Flash effects are not log records. -/
theorem logsOf_flashes (l : List Flash) :
    logsOf (l.map (fun fl => Effect.flashMsg fl.1 fl.2)) = [] := by
  induction l with
  | nil => rfl
  | cons fl tl ih => simpa [logsOf] using ih

/-- A `foldl` computing the last status is unchanged by a prefix that
sets no status. -/
theorem finalStatus_append_no_status (a b : List Effect)
    (h : ∀ c m, Effect.spanSetStatus c m ∉ a) :
    finalStatus (a ++ b) = finalStatus b := by
  induction a with
  | nil => simp
  | cons e tr ih =>
    cases e with
    | spanSetStatus c m => exact absurd (List.mem_cons_self _ _) (h c m)
    | _ =>
      simp only [List.cons_append, finalStatus, List.foldl_cons]
      exact ih (fun c m hm => h c m (List.mem_cons_of_mem _ hm))

/-! ### Characterization of `validate_course` on a full course record -/

/-- The flash emitted when required field `f` is blank. -/
def errFlash (f : String) : Flash :=
  ("Error: \x27" ++ f ++ "\x27 field is required!", "error")

/-- The flash emitted when the fields `fs` are blank. -/
def warnFlash (fs : List String) : Flash :=
  ("Warning: \x27" ++ String.intercalate ", " fs ++ "\x27 field is empty", "warning")

theorem requiredLoop_courseDict (c : Course) :
    requiredLoop (courseDict c) errorFieldNames =
      if stripEmpty c.code then .ok (some (.vFalse, errFlash "code"))
      else if stripEmpty c.name then .ok (some (.vFalse, errFlash "name"))
      else if stripEmpty c.instructor then .ok (some (.vFalse, errFlash "instructor"))
      else .ok none := by
  have hc : dictGet (courseDict c) "code" = .ok c.code := rfl
  have hn : dictGet (courseDict c) "name" = .ok c.name := rfl
  have hi : dictGet (courseDict c) "instructor" = .ok c.instructor := rfl
  simp only [errorFieldNames, requiredLoop, hc, hn, hi, errFlash]

theorem warningLoop_courseDict (c : Course) :
    warningLoop (courseDict c) = formKeys.filter (fun f => stripEmpty (fieldOf c f)) := by
  unfold warningLoop
  have h0 : (courseDict c).map Prod.fst = formKeys := rfl
  rw [h0]
  refine List.filter_congr ?_
  intro x hx
  fin_cases hx <;> rfl

theorem warningLoop_courseDict_nil_iff (c : Course) :
    warningLoop (courseDict c) = [] ↔ anyBlank c = false := by
  rw [warningLoop_courseDict]
  simp [formKeys, fieldOf, anyBlank, List.filter_eq_nil_iff]
  tauto

/-- Master characterization: the full behaviour of `validate_course` on
the nine-field dict of a submitted course. -/
theorem validate_course_courseDict (c : Course) :
    validate_course (courseDict c) =
      if stripEmpty c.code then (.ok .vFalse, [errFlash "code"])
      else if stripEmpty c.name then (.ok .vFalse, [errFlash "name"])
      else if stripEmpty c.instructor then (.ok .vFalse, [errFlash "instructor"])
      else if anyBlank c then (.ok .vWarning, [warnFlash (warningLoop (courseDict c))])
      else (.ok .vTrue, []) := by
  unfold validate_course
  rw [requiredLoop_courseDict]
  by_cases h1 : stripEmpty c.code
  · simp [h1]
  by_cases h2 : stripEmpty c.name
  · simp [h1, h2]
  by_cases h3 : stripEmpty c.instructor
  · simp [h1, h2, h3]
  by_cases hw : anyBlank c
  · have : ¬(warningLoop (courseDict c)).isEmpty := by
      rw [List.isEmpty_iff, warningLoop_courseDict_nil_iff]
      simp [hw]
    simp [h1, h2, h3, hw, this, warnFlash]
  · have : (warningLoop (courseDict c)).isEmpty := by
      rw [List.isEmpty_iff, warningLoop_courseDict_nil_iff]
      simp_all
    simp [h1, h2, h3, hw, this]

/-- When validation of a full course record reports the warning outcome,
the single flash it emitted names exactly the blank fields. -/
theorem validate_snd_of_warning (c : Course)
    (hw : (validate_course (courseDict c)).1 = .ok .vWarning) :
    (validate_course (courseDict c)).2 = [warnFlash (warningLoop (courseDict c))] := by
  have hm := validate_course_courseDict c
  rw [hm] at hw ⊢
  split_ifs at hw ⊢ <;> simp_all

/-- When validation of a full course record rejects, the single flash it
emitted is the error flash of one required field. -/
theorem validate_snd_of_false (c : Course)
    (hf : (validate_course (courseDict c)).1 = .ok .vFalse) :
    ∃ f, (validate_course (courseDict c)).2 = [errFlash f] := by
  have hm := validate_course_courseDict c
  rw [hm] at hf ⊢
  split_ifs at hf ⊢
  · exact ⟨"code", rfl⟩
  · exact ⟨"name", rfl⟩
  · exact ⟨"instructor", rfl⟩
  · simp_all
  · simp_all

/-- Validation of a full course record never raises. -/
theorem validate_fst_ok (c : Course) :
    ∃ r : PyVal, (validate_course (courseDict c)).1 = .ok r := by
  have hm := validate_course_courseDict c
  rw [hm]
  split_ifs <;> exact ⟨_, rfl⟩

/-- A dict lookup on a present key succeeds. -/
theorem dictGet_ok_of_mem (d : Dict) (k : String) (h : k ∈ d.map Prod.fst) :
    ∃ v, dictGet d k = .ok v := by
  induction d with
  | nil => simp at h
  | cons kv tl ih =>
    by_cases hk : (kv.1 == k) = true
    · exact ⟨kv.2, by simp [dictGet, List.find?, hk]⟩
    · rw [List.map_cons] at h
      have : k ∈ tl.map Prod.fst := by
        rcases List.mem_cons.mp h with h1 | h1
        · exact absurd (by simp [h1] : (kv.1 == k) = true) hk
        · exact h1
      obtain ⟨v, hv⟩ := ih this
      exact ⟨v, by simpa [dictGet, List.find?, hk] using hv⟩

/-- The required-field loop never raises when every required key is
present in the dict. -/
theorem requiredLoop_ok (d : Dict) (fs : List String)
    (h : ∀ k ∈ fs, k ∈ d.map Prod.fst) :
    ∃ o, requiredLoop d fs = .ok o := by
  induction fs with
  | nil => exact ⟨none, rfl⟩
  | cons f rest ih =>
    obtain ⟨v, hv⟩ := dictGet_ok_of_mem d f (h f (by simp))
    by_cases hs : stripEmpty v = true
    · exact ⟨some (.vFalse,
        ("Error: \x27" ++ f ++ "\x27 field is required!", "error")),
        by simp [requiredLoop, hv, hs]⟩
    · obtain ⟨o, ho⟩ := ih (fun k hk => h k (by simp [hk]))
      exact ⟨o, by simp [requiredLoop, hv, hs, ho]⟩

/-! ## The claims -/

/-- C1: for every submitted course record (all nine tracked fields present
as strings), `validate_course` returns Rejected (`False`) exactly when a
required field among code, name, instructor is blank after trimming, and
then emits only the required-field error flash (no optional-field
warning); otherwise it returns the warning outcome exactly when the set
of tracked fields with blank values is non-empty, carrying that exact
set, and the accepted outcome (`True`) exactly when every tracked field
is non-blank. -/
theorem C1_validate_trichotomy (c : Course) :
    ((validate_course (courseDict c)).1 = .ok .vFalse ↔ reqBlank c = true) ∧
    ((validate_course (courseDict c)).1 = .ok .vWarning ↔
      (reqBlank c = false ∧ anyBlank c = true)) ∧
    ((validate_course (courseDict c)).1 = .ok .vTrue ↔ anyBlank c = false) ∧
    (∀ f, f ∈ warningLoop (courseDict c) ↔
      f ∈ formKeys ∧ stripEmpty (fieldOf c f) = true) ∧
    (reqBlank c = true → ∀ fl ∈ (validate_course (courseDict c)).2, fl.2 = "error") ∧
    ((validate_course (courseDict c)).1 = .ok .vWarning →
      (validate_course (courseDict c)).2 = [warnFlash (warningLoop (courseDict c))]) := by
  have hm := validate_course_courseDict c
  refine ⟨?_, ?_, ?_, ?_, ?_, validate_snd_of_warning c⟩
  · rw [hm]
    split_ifs with h1 h2 h3 h4 <;> simp_all [reqBlank, anyBlank]
  · rw [hm]
    split_ifs with h1 h2 h3 h4 <;> simp_all [reqBlank, anyBlank]
  · rw [hm]
    split_ifs with h1 h2 h3 h4
    · have h : anyBlank c = true := by simp [anyBlank, h1]
      simp [h]
    · have h : anyBlank c = true := by simp [anyBlank, h2]
      simp [h]
    · have h : anyBlank c = true := by simp [anyBlank, h3]
      simp [h]
    · simp [h4]
    · simp_all
  · intro f
    rw [warningLoop_courseDict]
    simp [List.mem_filter]
  · intro hr fl hfl
    rw [hm] at hfl
    split_ifs at hfl with h1 h2 h3 h4 <;>
      simp_all [reqBlank, errFlash]

theorem C1_validate_trichotomy_witness :
    ((validate_course (courseDict
        ⟨"CS101", "Intro", "Dr. X", "", "Mon", "R1", "p", "g", "d"⟩)).2 =
      [warnFlash (warningLoop (courseDict
        ⟨"CS101", "Intro", "Dr. X", "", "Mon", "R1", "p", "g", "d"⟩))]) ∧
    (∀ fl ∈ (validate_course (courseDict
        ⟨"", "Algo", "Dr. Y", "a", "b", "c", "d", "e", "f"⟩)).2, fl.2 = "error") := by
  constructor
  · exact (C1_validate_trichotomy
      ⟨"CS101", "Intro", "Dr. X", "", "Mon", "R1", "p", "g", "d"⟩).2.2.2.2.2 (by decide)
  · exact (C1_validate_trichotomy
      ⟨"", "Algo", "Dr. Y", "a", "b", "c", "d", "e", "f"⟩).2.2.2.2.1 (by decide)

/-- C9 counterexample: a concrete call of `validate_course` whose
observable behaviour is not exhausted by its return value: it also
flashes a user-facing message (a session side effect). -/
theorem C9_validate_not_effect_free :
    validate_course (courseDict ⟨"", "Algo", "Dr. Y", "a", "b", "c", "d", "e", "f"⟩)
      = (.ok .vFalse, [errFlash "code"]) ∧
    ([errFlash "code"] : List Flash) ≠ [] := by
  constructor
  · decide
  · decide

/-- C9 amended: `validate_course` is deterministic (equal inputs give
equal results and equal flash effects), but it is side-effect free only
on the accepted path: on a full course record the flash list is empty
exactly when the outcome is `True`. -/
theorem C9_validate_deterministic (d₁ d₂ : Dict) (h : d₁ = d₂) :
    validate_course d₁ = validate_course d₂ ∧
    (∀ c : Course, (validate_course (courseDict c)).2 = [] ↔
      (validate_course (courseDict c)).1 = .ok .vTrue) := by
  refine ⟨by rw [h], ?_⟩
  intro c
  rw [validate_course_courseDict]
  split_ifs <;> simp [errFlash, warnFlash]

theorem C9_validate_deterministic_witness :
    validate_course [("code", "x")] = validate_course [("code", "x")] :=
  (C9_validate_deterministic [("code", "x")] [("code", "x")] rfl).1

/-- C10: `validate_course` terminates normally exactly under the implicit
precondition that the required keys are present: a record containing
every tracked key returns one of the three outcomes without raising,
while the record `{name: "Algo", instructor: "Dr. Y"}` missing the
required key `code` raises `KeyError` instead of returning Rejected. -/
theorem C10_validate_keyerror :
    (∀ d : Dict, (∀ k ∈ formKeys, k ∈ d.map Prod.fst) →
      ∃ r : PyVal, (validate_course d).1 = .ok r) ∧
    validate_course [("name", "Algo"), ("instructor", "Dr. Y")]
      = (.error "KeyError: code", []) := by
  constructor
  · intro d h
    have hreq : ∀ k ∈ errorFieldNames, k ∈ d.map Prod.fst := by
      intro k hk
      refine h k ?_
      revert hk
      simp [errorFieldNames, formKeys]
      tauto
    obtain ⟨o, ho⟩ := requiredLoop_ok d errorFieldNames hreq
    unfold validate_course
    rw [ho]
    match o with
    | some (r, fl) => exact ⟨r, rfl⟩
    | none =>
      by_cases hw : (warningLoop d).isEmpty
      · exact ⟨.vTrue, by simp [hw]⟩
      · exact ⟨.vWarning, by simp [hw]⟩
  · decide

theorem C10_validate_keyerror_witness :
    ∃ r : PyVal, (validate_course (courseDict
      ⟨"a", "b", "c", "d", "e", "f", "g", "h", "i"⟩)).1 = .ok r :=
  (C10_validate_keyerror).1
    (courseDict ⟨"a", "b", "c", "d", "e", "f", "g", "h", "i"⟩) (by decide)

/-- The `event` field of a log payload beginning with the level and
event entries. -/
theorem eventOf_cons (s ev : String) (rest : Dict) :
    eventOf (("level:", s) :: ("event", ev) :: rest) = ev := rfl

/-- C2: when validation of the submitted course yields the warning
outcome, `add_course` emits exactly one Warning-severity log, with event
`course-add-warning`, attaches `warning.message` and `course.code` to
the span, adds the warning event to the span, still calls `save_courses`
with the submitted record, and the span's terminal status is Ok. -/
theorem C2_add_course_warning (ctx : ReqCtx) (form : Dict) (c : Course)
    (hb : buildCourse form = .ok c)
    (hw : (validate_course (courseDict c)).1 = .ok .vWarning) :
    countSev .warn (add_course_post ctx form).1 = 1 ∧
    countLogs .warn "course-add-warning" (add_course_post ctx form).1 = 1 ∧
    Effect.spanSetAttr "warning.message" (.str "Some fields are empty")
      ∈ (add_course_post ctx form).1 ∧
    Effect.spanSetAttr "course.code" (.str c.code) ∈ (add_course_post ctx form).1 ∧
    Effect.spanAddEvent "Potential issue detected" ∈ (add_course_post ctx form).1 ∧
    storeSaves (add_course_post ctx form).1 = 1 ∧
    Effect.storeSave (courseDict c) ∈ (add_course_post ctx form).1 ∧
    finalStatus (add_course_post ctx form).1 =
      some (.ok, "Course \x27" ++ c.name ++ "\x27 added successfully") := by
  have hsnd := validate_snd_of_warning c hw
  have hcode : dictGetD (courseDict c) "code" = c.code := rfl
  have hname : dictGetD (courseDict c) "name" = c.name := rfl
  simp only [add_course_post, hb, hw, hsnd, hcode, hname]
  refine ⟨?_, ?_, ?_, ?_, ?_, ?_, ?_, ?_⟩ <;>
    simp [baseAttrs, countSev_append, countSev, countLogs_append, countLogs,
      storeSaves_append, storeSaves, eventOf_cons, finalStatus, warnFlash]

theorem C2_add_course_warning_witness :
    countSev .warn (add_course_post ⟨"POST", "http://localhost/add_course", "127.0.0.1"⟩
      [("code", "CS101"), ("name", "Intro"), ("instructor", "Dr. X"),
       ("semester", ""), ("schedule", "Mon"), ("classroom", "R1"),
       ("prerequisites", "p"), ("grading", "g"), ("description", "d")]).1 = 1 :=
  (C2_add_course_warning ⟨"POST", "http://localhost/add_course", "127.0.0.1"⟩
    [("code", "CS101"), ("name", "Intro"), ("instructor", "Dr. X"),
     ("semester", ""), ("schedule", "Mon"), ("classroom", "R1"),
     ("prerequisites", "p"), ("grading", "g"), ("description", "d")]
    ⟨"CS101", "Intro", "Dr. X", "", "Mon", "R1", "p", "g", "d"⟩
    (by decide) (by decide)).1

/-- C3: when validation of the submitted course rejects, `add_course`
emits exactly one Error-severity log, with event `course-add-error`,
attaches `error.message` to the span, closes the span with status Error,
never calls `save_courses`, and returns the add-course page (a
user-visible failure) instead of redirecting. -/
theorem C3_add_course_rejected (ctx : ReqCtx) (form : Dict) (c : Course)
    (hb : buildCourse form = .ok c)
    (hr : (validate_course (courseDict c)).1 = .ok .vFalse) :
    countSev .error (add_course_post ctx form).1 = 1 ∧
    countLogs .error "course-add-error" (add_course_post ctx form).1 = 1 ∧
    Effect.spanSetAttr "error.message" (.str "Required fields are empty")
      ∈ (add_course_post ctx form).1 ∧
    finalStatus (add_course_post ctx form).1 =
      some (.error, "Required fields are empty") ∧
    storeSaves (add_course_post ctx form).1 = 0 ∧
    (add_course_post ctx form).2 = .render "add_course.html" := by
  obtain ⟨f, hsnd⟩ := validate_snd_of_false c hr
  simp only [add_course_post, hb, hr, hsnd]
  refine ⟨?_, ?_, ?_, ?_, ?_, ?_⟩ <;>
    simp [baseAttrs, countSev_append, countSev, countLogs_append, countLogs,
      storeSaves_append, storeSaves, eventOf_cons, finalStatus, errFlash]

theorem C3_add_course_rejected_witness :
    countSev .error (add_course_post ⟨"POST", "http://localhost/add_course", "127.0.0.1"⟩
      [("code", ""), ("name", "Algo"), ("instructor", "Dr. Y"),
       ("semester", "a"), ("schedule", "b"), ("classroom", "c"),
       ("prerequisites", "d"), ("grading", "e"), ("description", "f")]).1 = 1 :=
  (C3_add_course_rejected ⟨"POST", "http://localhost/add_course", "127.0.0.1"⟩
    [("code", ""), ("name", "Algo"), ("instructor", "Dr. Y"),
     ("semester", "a"), ("schedule", "b"), ("classroom", "c"),
     ("prerequisites", "d"), ("grading", "e"), ("description", "f")]
    ⟨"", "Algo", "Dr. Y", "a", "b", "c", "d", "e", "f"⟩
    (by decide) (by decide)).1

/-- C5: a course-details request for a code absent from the stored
catalog emits exactly one Error-severity log, with event
`view-course-details-error`, closes the span with status Error and
message `No course found with code '<code>'.`, and redirects the user to
the catalog list view. -/
theorem C5_course_details_not_found (ctx : ReqCtx) (code : String)
    (catalog : List Course) (h : ∀ c ∈ catalog, c.code ≠ code) :
    countSev .error (course_details ctx code catalog).1 = 1 ∧
    countLogs .error "view-course-details-error"
      (course_details ctx code catalog).1 = 1 ∧
    finalStatus (course_details ctx code catalog).1 =
      some (.error, "No course found with code \x27" ++ code ++ "\x27.") ∧
    (course_details ctx code catalog).2 = .redirect "course_catalog" := by
  have hfind : catalog.find? (fun c => c.code == code) = none := by
    apply List.find?_eq_none.mpr
    intro c hc
    simp [h c hc]
  simp only [course_details, hfind]
  refine ⟨?_, ?_, ?_, ?_⟩ <;>
    simp [baseAttrs, countSev_append, countSev, countLogs_append, countLogs,
      eventOf_cons, finalStatus]

theorem C5_course_details_not_found_witness :
    (course_details ⟨"GET", "http://localhost/course/MATH200", "127.0.0.1"⟩
      "MATH200" []).2 = .redirect "course_catalog" :=
  (C5_course_details_not_found ⟨"GET", "http://localhost/course/MATH200", "127.0.0.1"⟩
    "MATH200" [] (by simp)).2.2.2

/-- C8: the delete-by-code operation calls the store `removeCourse`
exactly once, emits exactly one Info-severity log with event
`course-deleted`, and sets span attribute `course.code` to the requested
code, whatever the catalog content is (in particular whether or not the
code occurs in it). -/
theorem C8_delete_course (ctx : ReqCtx) (code : String) (catalog : List Course) :
    storeRemoves (delete_course ctx code catalog).1 = 1 ∧
    Effect.storeRemove code ∈ (delete_course ctx code catalog).1 ∧
    countSev .info (delete_course ctx code catalog).1 = 1 ∧
    countLogs .info "course-deleted" (delete_course ctx code catalog).1 = 1 ∧
    Effect.spanSetAttr "course.code" (.str code) ∈ (delete_course ctx code catalog).1 := by
  refine ⟨?_, ?_, ?_, ?_, ?_⟩ <;>
    simp [delete_course, baseAttrs, storeRemoves_append, storeRemoves,
      countSev_append, countSev, countLogs_append, countLogs, eventOf_cons]

/-- Every single handler invocation closes exactly as many spans as it
opens. -/
theorem span_balance_op (op : Operation) :
    spanCloses (traceOf op) = spanOpens (traceOf op) := by
  cases op with
  | opIndex ctx => rfl
  | opCatalog ctx courses => rfl
  | opAddGet ctx => rfl
  | opAddPost ctx form =>
    show spanCloses (add_course_post ctx form).1 = spanOpens (add_course_post ctx form).1
    cases hbc : buildCourse form with
    | error e =>
      simp only [add_course_post, hbc]
      rfl
    | ok c =>
      rcases hval : validate_course (courseDict c) with ⟨v, fls⟩
      cases v with
      | error e =>
        simp [add_course_post, hbc, hval, baseAttrs, spanCloses_append,
          spanOpens_append, spanCloses_flashes, spanOpens_flashes,
          spanCloses, spanOpens]
      | ok r =>
        cases r <;>
          simp [add_course_post, hbc, hval, baseAttrs, spanCloses_append,
            spanOpens_append, spanCloses_flashes, spanOpens_flashes,
            spanCloses, spanOpens]
  | opDetails ctx code catalog =>
    show spanCloses (course_details ctx code catalog).1
        = spanOpens (course_details ctx code catalog).1
    cases hf : catalog.find? (fun c => c.code == code) <;>
      simp [course_details, hf, baseAttrs, spanCloses_append, spanOpens_append,
        spanCloses, spanOpens]
  | opContact ctx => rfl
  | opManual ctx => rfl
  | opAuto => rfl

/-- The concatenated effect trace of a sequence of handler invocations. -/
def runAll : List Operation → List Effect
  | [] => []
  | op :: ops => traceOf op ++ runAll ops

/-- A failing `add_course` POST still closes its span, and closes it
last, before the exception propagates. -/
theorem add_course_post_exception_closes (ctx : ReqCtx) (form : Dict) (e : String)
    (h : (add_course_post ctx form).2 = .exception e) :
    spanCloses (add_course_post ctx form).1 = spanOpens (add_course_post ctx form).1 ∧
    (add_course_post ctx form).1.getLast? = some .spanClose := by
  cases hbc : buildCourse form with
  | error e2 =>
    simp only [add_course_post, hbc]
    exact ⟨rfl, rfl⟩
  | ok c =>
    rcases hval : validate_course (courseDict c) with ⟨v, fls⟩
    cases v with
    | error e2 =>
      simp only [add_course_post, hbc, hval]
      constructor
      · simp [baseAttrs, spanCloses_append, spanOpens_append,
          spanCloses_flashes, spanOpens_flashes, spanCloses, spanOpens]
      · rw [List.getLast?_append_of_ne_nil] <;> simp
    | ok r =>
      exfalso
      simp only [add_course_post, hbc, hval] at h
      cases r <;> simp at h

/-- C6: every span opened by a handler is closed exactly once on every
exit path: each invocation's trace closes as many spans as it opens, the
balance extends to any sequence of operations, and an `add_course`
invocation that ends in a propagating exception still closes its span,
as the last effect before the failure escapes. -/
theorem C6_span_lifecycle :
    (∀ op : Operation, spanCloses (traceOf op) = spanOpens (traceOf op)) ∧
    (∀ ops : List Operation, spanCloses (runAll ops) = spanOpens (runAll ops)) ∧
    (∀ (ctx : ReqCtx) (form : Dict) (e : String),
      (add_course_post ctx form).2 = .exception e →
      spanCloses (add_course_post ctx form).1
        = spanOpens (add_course_post ctx form).1 ∧
      (add_course_post ctx form).1.getLast? = some .spanClose) := by
  refine ⟨span_balance_op, ?_, add_course_post_exception_closes⟩
  intro ops
  induction ops with
  | nil => rfl
  | cons op ops ih =>
    simp [runAll, spanCloses_append, spanOpens_append, ih, span_balance_op op]

theorem C6_span_lifecycle_witness :
    spanCloses (add_course_post ⟨"POST", "http://localhost/add_course", "127.0.0.1"⟩ []).1
      = spanOpens (add_course_post ⟨"POST", "http://localhost/add_course", "127.0.0.1"⟩ []).1 ∧
    (add_course_post ⟨"POST", "http://localhost/add_course", "127.0.0.1"⟩ []).1.getLast?
      = some .spanClose :=
  (C6_span_lifecycle).2.2 ⟨"POST", "http://localhost/add_course", "127.0.0.1"⟩ []
    "KeyError: code" (by decide)

/-- C4 counterexample: the `index` handler serves a request while
opening no span at all (it only logs), and the `manual_trace` handler
opens a span but emits no log record — so not every handler wraps its
work in a span and mirrors the event into a log. -/
theorem C4_index_no_span :
    spanOpens (index ⟨"GET", "http://localhost/", "127.0.0.1"⟩).1 = 0 ∧
    (logsOf (index ⟨"GET", "http://localhost/", "127.0.0.1"⟩).1).length = 1 ∧
    spanOpens (manual_trace ⟨"GET", "http://localhost/manual-trace", "127.0.0.1"⟩).1 = 1 ∧
    logsOf (manual_trace ⟨"GET", "http://localhost/manual-trace", "127.0.0.1"⟩).1 = [] :=
  ⟨rfl, rfl, rfl, rfl⟩

/-- C4 amended: the span-plus-log pattern holds for `course_catalog`,
`add_course` (POST), `course_details` and `contact` (exactly one span,
at least one structured log each), but not for every handler: `index`
logs without opening a span, `add_course` (GET) and `manual_trace` open
a span without logging, and `auto_instrumented` does neither. -/
theorem C4_span_log_per_handler (ctx : ReqCtx) (courses catalog : List Course)
    (code : String) (form : Dict) (c : Course)
    (hb : buildCourse form = .ok c) :
    (spanOpens (index ctx).1 = 0 ∧ (logsOf (index ctx).1).length = 1) ∧
    (spanOpens (manual_trace ctx).1 = 1 ∧ logsOf (manual_trace ctx).1 = []) ∧
    (spanOpens auto_instrumented.1 = 0 ∧ logsOf auto_instrumented.1 = []) ∧
    (spanOpens (add_course_get ctx).1 = 1 ∧ logsOf (add_course_get ctx).1 = []) ∧
    (spanOpens (course_catalog ctx courses).1 = 1 ∧
      (logsOf (course_catalog ctx courses).1).length = 1) ∧
    (spanOpens (contact ctx).1 = 1 ∧ (logsOf (contact ctx).1).length = 1) ∧
    (spanOpens (course_details ctx code catalog).1 = 1 ∧
      (logsOf (course_details ctx code catalog).1).length = 1) ∧
    (spanOpens (add_course_post ctx form).1 = 1 ∧
      1 ≤ (logsOf (add_course_post ctx form).1).length) := by
  refine ⟨⟨rfl, rfl⟩, ⟨rfl, rfl⟩, ⟨rfl, rfl⟩, ⟨rfl, rfl⟩, ⟨rfl, rfl⟩, ⟨rfl, rfl⟩, ?_, ?_⟩
  · cases hf : catalog.find? (fun x => x.code == code) <;>
      simp [course_details, hf, baseAttrs, spanOpens_append, spanOpens,
        logsOf_append, logsOf]
  · obtain ⟨r, hr⟩ := validate_fst_ok c
    cases r <;>
      simp [add_course_post, hb, hr, baseAttrs, spanOpens_append,
        spanOpens_flashes, spanOpens, logsOf_append, logsOf_flashes, logsOf]

theorem C4_span_log_per_handler_witness :
    spanOpens (index ⟨"GET", "http://localhost/", "127.0.0.1"⟩).1 = 0 ∧
    (logsOf (index ⟨"GET", "http://localhost/", "127.0.0.1"⟩).1).length = 1 :=
  (C4_span_log_per_handler ⟨"GET", "http://localhost/", "127.0.0.1"⟩ [] [] "CS101"
    [("code", "a"), ("name", "b"), ("instructor", "c"), ("semester", "d"),
     ("schedule", "e"), ("classroom", "f"), ("prerequisites", "g"),
     ("grading", "h"), ("description", "i")]
    ⟨"a", "b", "c", "d", "e", "f", "g", "h", "i"⟩ (by decide)).1

/-- C7 counterexample: the Error record emitted by a rejected
`add_course` serializes its fields in the order severity label, event,
error message, HTTP method, URL, client address — the message comes
third, not last as claimed. -/
theorem C7_field_order_cex :
    (logsOf (add_course_post ⟨"POST", "http://localhost/add_course", "127.0.0.1"⟩
        [("code", ""), ("name", "Algo"), ("instructor", "Dr. Y"), ("semester", "a"),
         ("schedule", "b"), ("classroom", "c"), ("prerequisites", "d"),
         ("grading", "e"), ("description", "f")]).1).map (fun l => l.2.map Prod.fst)
      = [["level:", "event", "error.message", "http.method", "http.url", "user.ip"]] ∧
    (["level:", "event", "error.message", "http.method", "http.url", "user.ip"]
        : List String)
      ≠ ["level:", "event", "http.method", "http.url", "user.ip", "error.message"] :=
  ⟨rfl, by decide⟩

/-- The serialized key order of each log payload, as a function of the
record's event name alone. -/
def expectedKeys : String → List String
  | "course-add-error" =>
    ["level:", "event", "error.message", "http.method", "http.url", "user.ip"]
  | "course-add-warning" =>
    ["level:", "event", "warning.message", "http.method", "http.url", "user.ip"]
  | "course-added" =>
    ["level:", "event", "http.method", "http.url", "user.ip", "course.code", "course.name"]
  | "view-course-details-error" =>
    ["level:", "event", "error.message", "http.method", "http.url", "user.ip"]
  | "view-course-details" =>
    ["level:", "event", "http.method", "http.url", "user.ip", "course.code", "course.name"]
  | _ => ["level:", "event", "http.method", "http.url", "user.ip"]

/-- C7 amended: every log call serializes its payload once and hands the
same serialized record synchronously to both configured sinks (the
persisted JSON file, then the console stream), and the field order of
every emitted record is deterministic, a function of the event alone:
severity label, event name, then the error/warning message when the
record carries one, then HTTP method, URL, client address, then course
code and name on course-specific success records. -/
theorem C7_log_serialization (fields : Dict) (op : Operation) :
    ((emitRecord fields).map Prod.snd = [formatRecord fields, formatRecord fields] ∧
     (emitRecord fields).map Prod.fst = [Sink.file "app_logs.json", Sink.stream]) ∧
    (∀ l ∈ logsOf (traceOf op), l.2.map Prod.fst = expectedKeys (eventOf l.2)) := by
  refine ⟨⟨rfl, rfl⟩, ?_⟩
  intro l hl
  cases op with
  | opIndex ctx =>
    simp [traceOf, runOp, index, logsOf] at hl
    subst hl
    rfl
  | opCatalog ctx courses =>
    simp [traceOf, runOp, course_catalog, baseAttrs, logsOf_append, logsOf] at hl
    subst hl
    rfl
  | opAddGet ctx =>
    simp [traceOf, runOp, add_course_get, baseAttrs, logsOf_append, logsOf] at hl
  | opAddPost ctx form =>
    cases hbc : buildCourse form with
    | error e =>
      simp [traceOf, runOp, add_course_post, hbc, baseAttrs, logsOf_append, logsOf] at hl
    | ok c =>
      obtain ⟨r, hr⟩ := validate_fst_ok c
      cases r with
      | vFalse =>
        simp [traceOf, runOp, add_course_post, hbc, hr, baseAttrs, logsOf_append,
          logsOf_flashes, logsOf] at hl
        subst hl
        rfl
      | vWarning =>
        simp [traceOf, runOp, add_course_post, hbc, hr, baseAttrs, logsOf_append,
          logsOf_flashes, logsOf] at hl
        rcases hl with rfl | rfl <;> rfl
      | vTrue =>
        simp [traceOf, runOp, add_course_post, hbc, hr, baseAttrs, logsOf_append,
          logsOf_flashes, logsOf] at hl
        subst hl
        rfl
  | opDetails ctx code catalog =>
    cases hf : catalog.find? (fun x => x.code == code) with
    | none =>
      simp [traceOf, runOp, course_details, hf, baseAttrs, logsOf_append, logsOf] at hl
      subst hl
      rfl
    | some cc =>
      simp [traceOf, runOp, course_details, hf, baseAttrs, logsOf_append, logsOf] at hl
      subst hl
      rfl
  | opContact ctx =>
    simp [traceOf, runOp, contact, baseAttrs, logsOf_append, logsOf] at hl
    subst hl
    rfl
  | opManual ctx =>
    simp [traceOf, runOp, manual_trace, logsOf] at hl
  | opAuto =>
    simp [traceOf, runOp, auto_instrumented, logsOf] at hl

theorem C7_log_serialization_witness :
    ∀ l ∈ logsOf (traceOf (.opIndex ⟨"GET", "http://localhost/", "127.0.0.1"⟩)),
      l.2.map Prod.fst = expectedKeys (eventOf l.2) :=
  (C7_log_serialization [] (.opIndex ⟨"GET", "http://localhost/", "127.0.0.1"⟩)).2

end CourseCatalog
